import Mathlib

/-!
Verification development for the grouped price report builder
(`excel_summary_19.py`): the row data model, the (code, Power Type)
grouping, supplier/description extraction, per-supplier totals with tax,
the markup renderer, the spreadsheet layout, and the PDF-upload
validation step, each embedded from the source.
-/

/-- A row of the source table: columns `type`, `supplier`, `brand`, `code`,
`description`, `Power Type` (optional: `none` models a missing / NaN cell)
and the numeric `price` (modelled as a rational). -/
structure Row where
  type : String
  supplier : String
  brand : String
  code : String
  description : String
  powerType : Option String
  price : ℚ
  deriving DecidableEq

/-- First-occurrence deduplication, the behaviour of pandas
`Series.unique()` and `DataFrame.drop_duplicates()`: keep each element at
the position of its first occurrence, drop later repeats. -/
def dedupFirst {α : Type} [DecidableEq α] : List α → List α
  | [] => []
  | x :: xs => x :: (dedupFirst xs).filter (fun y => !(y == x))

theorem mem_dedupFirst {α : Type} [DecidableEq α] {a : α} {l : List α} :
    a ∈ dedupFirst l ↔ a ∈ l := by
  induction l with
  | nil => simp [dedupFirst]
  | cons x xs ih =>
    simp only [dedupFirst, List.mem_cons, List.mem_filter, ih,
      Bool.not_eq_true', beq_eq_false_iff_ne, ne_eq]
    by_cases h : a = x
    · simp [h]
    · simp [h]

theorem nodup_dedupFirst {α : Type} [DecidableEq α] (l : List α) :
    (dedupFirst l).Nodup := by
  induction l with
  | nil => simp [dedupFirst]
  | cons x xs ih =>
    rw [dedupFirst, List.nodup_cons]
    constructor
    · intro hmem
      rcases List.mem_filter.mp hmem with ⟨-, hne⟩
      simp at hne
    · exact List.Nodup.filter _ ih

theorem sublist_dedupFirst {α : Type} [DecidableEq α] (l : List α) :
    (dedupFirst l).Sublist l := by
  induction l with
  | nil => simp [dedupFirst]
  | cons x xs ih =>
    rw [dedupFirst]
    exact List.Sublist.cons₂ x ((List.filter_sublist _).trans ih)

/-- Index of the first occurrence of `a` in `l` (length of `l` if absent). -/
def firstIdx {α : Type} [DecidableEq α] (l : List α) (a : α) : Nat :=
  l.findIdx (fun y => y == a)

theorem firstIdx_cons_self {α : Type} [DecidableEq α] (x : α) (xs : List α) :
    firstIdx (x :: xs) x = 0 := by
  simp [firstIdx, List.findIdx_cons]

theorem firstIdx_cons_ne {α : Type} [DecidableEq α] {a x : α} (xs : List α)
    (h : a ≠ x) : firstIdx (x :: xs) a = firstIdx xs a + 1 := by
  have hx : (x == a) = false := beq_eq_false_iff_ne.mpr (Ne.symm h)
  simp [firstIdx, List.findIdx_cons, hx]

theorem pairwise_firstIdx_dedupFirst {α : Type} [DecidableEq α] (l : List α) :
    (dedupFirst l).Pairwise (fun a b => firstIdx l a < firstIdx l b) := by
  induction l with
  | nil => simp [dedupFirst]
  | cons x xs ih =>
    rw [dedupFirst]
    refine List.Pairwise.cons ?_ ?_
    · intro b hb
      have hbne : b ≠ x := by
        rcases List.mem_filter.mp hb with ⟨-, hne⟩
        simpa using hne
      rw [firstIdx_cons_self, firstIdx_cons_ne _ hbne]
      exact Nat.succ_pos _
    · have hpair : ((dedupFirst xs).filter (fun y => !(y == x))).Pairwise
          (fun a b => firstIdx xs a < firstIdx xs b) :=
        List.Pairwise.sublist (List.filter_sublist _) ih
      refine List.Pairwise.imp_of_mem ?_ hpair
      intro a b ha hb hlt
      have hane : a ≠ x := by
        rcases List.mem_filter.mp ha with ⟨-, h⟩
        simpa using h
      have hbne : b ≠ x := by
        rcases List.mem_filter.mp hb with ⟨-, h⟩
        simpa using h
      rw [firstIdx_cons_ne _ hane, firstIdx_cons_ne _ hbne]
      exact Nat.succ_lt_succ hlt

/-- The rows that generate grouping keys (source line 167-171 and 297):
`df[(df["type"] == "item") & df["Power Type"].notna() & (df["Power Type"] != "")]`. -/
def mainItems (df : List Row) : List Row :=
  df.filter (fun r => r.type == "item" && r.powerType.isSome && !(r.powerType == some ""))

/-- The (code, Power Type) pairs of the key-generating rows, in table order
(source: `main_items[["code", "Power Type"]]`). -/
def itemKeys (df : List Row) : List (String × String) :=
  (mainItems df).filterMap (fun r => r.powerType.map (fun pt => (r.code, pt)))

/-- The grouping keys iterated by both renderers (source line 173 and 299):
`main_items[["code", "Power Type"]].drop_duplicates()`. -/
def groupKeys (df : List Row) : List (String × String) :=
  dedupFirst (itemKeys df)

/-- The rows of the item group for key `(code, pt)` (source lines 175-183 and
301-309): code matches, Power Type matches or is missing or blank, and type
is "item" or "subitem". -/
def itemsForCode (df : List Row) (code pt : String) : List Row :=
  df.filter (fun r =>
    r.code == code &&
    (r.powerType == some pt || r.powerType.isNone || r.powerType == some "") &&
    (r.type == "item" || r.type == "subitem"))

/-- `items_for_code["supplier"].unique()` (source lines 185 and 311). -/
def suppliersOf (group : List Row) : List String :=
  dedupFirst (group.map (fun r => r.supplier))

/-- `items_for_code["description"].unique()` (source lines 187 and 313). -/
def descriptionsOf (group : List Row) : List String :=
  dedupFirst (group.map (fun r => r.description))

/-- `items_for_code[items_for_code["type"] == "item"].iloc[0]["brand"]`
(source lines 186 and 312); `iloc[0]` on an empty selection raises, which the
embedding renders as `none`. -/
def brandOf (group : List Row) : Option String :=
  ((group.filter (fun r => r.type == "item")).head?).map (fun r => r.brand)

/-- Price lookup of the markup renderer (source lines 217-222 and 234-238):
filter the group on supplier and description, take `iloc[0]`'s price if the
selection is non-empty, else 0. -/
def priceForHtml (group : List Row) (s d : String) : ℚ :=
  match (group.filter (fun r => r.supplier == s && r.description == d)).head? with
  | some r => r.price
  | none => 0

/-- Price lookup of the spreadsheet renderer (source lines 350-356), the same
filter-then-`iloc[0]`-else-0 computation. -/
def priceForExcel (group : List Row) (s d : String) : ℚ :=
  match (group.filter (fun r => r.supplier == s && r.description == d)).head? with
  | some r => r.price
  | none => 0

/-- The accumulated `totals[s]` after the markup renderer's description loop
(source lines 200, 223, 239): starts at 0 and adds the cell price for each
description in order. -/
def rendererTotals (group : List Row) (descs : List String) (s : String) : ℚ :=
  descs.foldl (fun acc d => acc + priceForHtml group s d) 0

/-- The total-row value of the markup renderer (source line 255):
`totals[s] * (1 + tax_rate)`. -/
def rendererFinalTotal (group : List Row) (descs : List String)
    (taxRate : ℚ) (s : String) : ℚ :=
  rendererTotals group descs s * (1 + taxRate)

/-- Two-digit zero-padded rendering of a value below 100. -/
def twoDigits (n : Nat) : String :=
  if n < 10 then "0" ++ toString n else toString n

/-- Insert a thousands separator after every third character of a reversed
digit list. -/
def commaGroupRev : List Char → List Char
  | c1 :: c2 :: c3 :: c4 :: rest => c1 :: c2 :: c3 :: ',' :: commaGroupRev (c4 :: rest)
  | l => l

/-- Insert thousands separators into a digit string. -/
def insertCommas (s : String) : String :=
  String.mk ((commaGroupRev s.data.reverse).reverse)

/-- Python's `f"${price:,.2f}"`: dollar sign, thousands separators, two
decimals (source lines 224, 240, 256). -/
def formatCurrency (q : ℚ) : String :=
  let cents : ℤ := round (q * 100)
  let n : Nat := cents.natAbs
  "$" ++ (if cents < 0 then "-" else "")
    ++ insertCommas (toString (n / 100)) ++ "." ++ twoDigits (n % 100)

/-- Python's `f"{tax_percent:.2f}%"` (source line 248). -/
def formatPercent2 (q : ℚ) : String :=
  let cents : ℤ := round (q * 100)
  let n : Nat := cents.natAbs
  (if cents < 0 then "-" else "")
    ++ toString (n / 100) ++ "." ++ twoDigits (n % 100) ++ "%"

/-- The fixed markup preamble of `generate_html_table` (source lines 134-165):
wrapper div plus the style block. -/
def htmlPreamble : String :=
  "\n    <div style=\"overflow-x:auto;\">\n    <style>\n        table \x7b\n            border-collapse: collapse !important;\n            width: 100%;\n            margin-bottom: 40px;\n            font-family: Arial, sans-serif;\n            background-color: #ffffff;\n            color: #000000;\n            border: 1px solid #bfbfbf;\n        \x7d\n\n        th, td \x7b\n            border: 1px solid #bfbfbf !important;\n            padding: 6px 8px;\n            vertical-align: middle;\n            text-align: left;\n            background-clip: padding-box;\n        \x7d\n\n        th \x7b\n            background-color: #dae9f8;\n            font-weight: 600;\n        \x7d\n\n        .total-row td \x7b\n            background-color: #fce4d6;\n            font-weight: bold;\n        \x7d\n    </style>\n    "

/-- One supplier price cell of the markup renderer (source lines 217-224,
233-240): `<td>` around the formatted price. -/
def priceCellHtml (group : List Row) (s d : String) : String :=
  "<td>" ++ formatCurrency (priceForHtml group s d) ++ "</td>"

/-- One group's table of the markup renderer (source lines 173-259). Returns
`none` where the Python raises: brand lookup on a group without an "item" row
(`iloc[0]`), or `descriptions[0]` on an empty group. -/
def renderGroupTable (df : List Row) (taxPercent taxRate : ℚ)
    (code pt : String) : Option String :=
  let group := itemsForCode df code pt
  let suppliers := suppliersOf group
  match (group.filter (fun r => r.type == "item")).head? with
  | none => none
  | some itemRow =>
    let brand := itemRow.brand
    match descriptionsOf group with
    | [] => none
    | firstDesc :: restDescs =>
      let bodyRows := (descriptionsOf group).length + 2
      let headerStr := "<tr><th>Details</th><th></th><th>QTY</th><th>Items</th>"
        ++ String.join (suppliers.map (fun s => "<th>" ++ s ++ "</th>")) ++ "</tr>"
      let detailsCell := "<td rowspan=\"" ++ toString bodyRows ++ "\"><b>Brand</b><br>"
        ++ brand ++ "<br><br><b>Code</b><br>" ++ code
        ++ "<br><br><b>Power Type</b><br>" ++ pt ++ "</td><td rowspan=\""
        ++ toString bodyRows ++ "\"></td>"
      let firstRowStr := "<tr>" ++ detailsCell ++ "<td>1</td><td>" ++ firstDesc ++ "</td>"
        ++ String.join (suppliers.map (fun s => priceCellHtml group s firstDesc)) ++ "</tr>"
      let restRowsStr := String.join (restDescs.map (fun d =>
        "<tr><td>1</td><td>" ++ d ++ "</td>"
        ++ String.join (suppliers.map (fun s => priceCellHtml group s d)) ++ "</tr>"))
      let taxRowStr := "<tr><td></td><td><b>Tax</b></td>"
        ++ String.join (suppliers.map (fun _ => "<td>" ++ formatPercent2 taxPercent ++ "</td>"))
        ++ "</tr>"
      let totalRowStr := "<tr class=\x27total-row\x27><td></td><td>Total</td>"
        ++ String.join (suppliers.map (fun s =>
            "<td>" ++ formatCurrency (rendererFinalTotal group (descriptionsOf group) taxRate s)
              ++ "</td>"))
        ++ "</tr>"
      some ("<table>" ++ headerStr ++ firstRowStr ++ restRowsStr
        ++ taxRowStr ++ totalRowStr ++ "</table>")

/-- The group loop of `generate_html_table`: concatenate the per-group tables
in key order, propagating a raised exception as `none`. -/
def renderAll (df : List Row) (taxPercent taxRate : ℚ) :
    List (String × String) → Option String
  | [] => some ""
  | k :: ks =>
    match renderGroupTable df taxPercent taxRate k.1 k.2,
        renderAll df taxPercent taxRate ks with
    | some s, some rest => some (s ++ rest)
    | _, _ => none

/-- `generate_html_table(df, tax_percent)` (source lines 131-262): preamble,
one table per grouping key, closing `</div>`. -/
def generateHtmlTable (df : List Row) (taxPercent : ℚ) : Option String :=
  (renderAll df taxPercent (taxPercent / 100) (groupKeys df)).map
    (fun body => htmlPreamble ++ body ++ "</div>")

/-- State-passing embedding of the render call site (source line 271): the
function reads the dataframe only through boolean-mask selections, which
build new frames; the session dataframe after the call is unchanged. -/
def generateHtmlTableRun (df : List Row) (taxPercent : ℚ) :
    Option String × List Row :=
  (generateHtmlTable df taxPercent, df)

/-- The quantity written into each description line's QTY cell of the
workbook (source line 345): the literal `1`. -/
def excelQtyCellValue : ℚ := 1

/-- Evaluation of the per-line spreadsheet formula
`"={qty_letter}{row}*{price}"` (source line 357): the quantity cell's
content times the literal price embedded in the formula. -/
def evalLineFormula (group : List Row) (s d : String) : ℚ :=
  excelQtyCellValue * priceForExcel group s d

/-- `start_row_offset` of the spreadsheet renderer (source line 293). -/
def startRowOffset : Nat := 1

/-- The row positions of one group's block in the workbook (source lines
315-401): `header` is the first written row (`start_row + start_row_offset`),
`total` the last. -/
structure GroupBlock where
  startRow : Nat
  headerRow : Nat
  firstItemRow : Nat
  taxRow : Nat
  totalRow : Nat
  deriving DecidableEq

/-- Row layout of the group placed at `current_row` (source lines 315-316,
343-344, 360-362, 370): `data_row = start_row + 1`, items at
`data_row + i + start_row_offset`, `extra_rows` is 2 when the group has no
"subitem" row and 0 otherwise, `tax_row = data_row + len(descriptions) +
extra_rows + start_row_offset`, `total_row = tax_row + 1`. -/
def blockAt (df : List Row) (currentRow : Nat) (code pt : String) : GroupBlock :=
  let group := itemsForCode df code pt
  let descs := descriptionsOf group
  let startRow := currentRow
  let dataRow := startRow + 1
  let extraRows := if group.any (fun r => r.type == "subitem") then 0 else 2
  let taxRow := dataRow + descs.length + extraRows + startRowOffset
  { startRow := startRow
    headerRow := startRow + startRowOffset
    firstItemRow := dataRow + startRowOffset
    taxRow := taxRow
    totalRow := taxRow + 1 }

/-- The group loop of the spreadsheet renderer (source lines 299-401):
each group is laid out at `current_row`, which then advances to
`total_row + 3`. -/
def layoutFrom (df : List Row) : Nat → List (String × String) → List GroupBlock
  | _, [] => []
  | currentRow, k :: ks =>
    let b := blockAt df currentRow k.1 k.2
    b :: layoutFrom df (b.totalRow + 3) ks

/-- The block layout of the whole workbook: the loop starts with
`current_row = 1` (source line 295) over the grouping keys. -/
def layoutBlocks (df : List Row) : List GroupBlock :=
  layoutFrom df 1 (groupKeys df)

/-- Outcome of the PDF-upload section for an upload of `numFiles` files
(source lines 40-59): `pdfs and len(pdfs) != 3` warns; the request is sent
only under `pdfs and len(pdfs) == 3` and the process button. -/
structure PdfUploadOutcome where
  warned : Bool
  requestSent : Bool
  deriving DecidableEq

/-- The PDF-upload control flow (source lines 40-59). `numFiles = 0` models
a falsy (absent or empty) upload list. -/
def pdfUploadStep (numFiles : Nat) (processClicked : Bool) : PdfUploadOutcome :=
  { warned := decide (numFiles ≠ 0) && decide (numFiles ≠ 3)
    requestSent := decide (numFiles ≠ 0) && decide (numFiles = 3) && processClicked }

/-- Concrete data: the worked example of the spec's totals property. -/
def rowEx1 : Row := ⟨"item", "A", "Acme", "CC", "X", some "PT", 10⟩

def rowEx2 : Row := ⟨"subitem", "A", "", "CC", "Y", none, 20⟩

def rowEx3 : Row := ⟨"subitem", "B", "", "CC", "X", none, 15⟩

def rowEx4 : Row := ⟨"subitem", "B", "", "CC", "Y", none, 5⟩

/-- Table with one group: suppliers A and B, descriptions X and Y, prices
A/X=10, A/Y=20, B/X=15, B/Y=5. -/
def dfExample : List Row := [rowEx1, rowEx2, rowEx3, rowEx4]

/-- Table with two groups (distinct codes and Power Types), used to inspect
the workbook layout. -/
def dfTwoGroups : List Row :=
  [⟨"item", "A", "BrandA", "C1", "X", some "P1", 10⟩,
   ⟨"item", "A", "BrandB", "C2", "Y", some "P2", 5⟩]

/-- Row pair with a duplicated (supplier, description) cell. -/
def rowDup1 : Row := ⟨"item", "A", "Acme", "CD", "X", some "PT", 10⟩

def rowDup2 : Row := ⟨"subitem", "A", "", "CD", "X", none, 99⟩

/-- Table whose group has two rows for the same (supplier, description). -/
def dfDup : List Row := [rowDup1, rowDup2]

/-- Table whose only row is a subitem: its group has no "item" row. -/
def dfSubOnly : List Row := [⟨"subitem", "A", "", "CZ", "X", none, 7⟩]

theorem mem_mainItems {df : List Row} {r : Row} :
    r ∈ mainItems df ↔
      r ∈ df ∧ r.type = "item" ∧ ∃ s, r.powerType = some s ∧ s ≠ "" := by
  simp only [mainItems, List.mem_filter, Bool.and_eq_true, beq_iff_eq,
    Bool.not_eq_true', beq_eq_false_iff_ne, ne_eq, Option.isSome_iff_exists,
    and_assoc]
  constructor
  · rintro ⟨hmem, htype, ⟨s, hs⟩, hne⟩
    refine ⟨hmem, htype, s, hs, ?_⟩
    intro h
    exact hne (by rw [hs, h])
  · rintro ⟨hmem, htype, s, hs, hsne⟩
    refine ⟨hmem, htype, ⟨s, hs⟩, ?_⟩
    rw [hs]
    intro h
    exact hsne (Option.some.inj h)

theorem mem_itemKeys {df : List Row} {k : String × String} :
    k ∈ itemKeys df ↔
      ∃ r ∈ df, r.type = "item" ∧ r.powerType = some k.2 ∧ k.2 ≠ "" ∧ r.code = k.1 := by
  simp only [itemKeys, List.mem_filterMap]
  constructor
  · rintro ⟨r, hr, hmap⟩
    rcases mem_mainItems.mp hr with ⟨hdf, htype, s, hs, hsne⟩
    rw [hs] at hmap
    simp only [Option.map_some'] at hmap
    rcases hmap with rfl | _
    · exact ⟨r, hdf, htype, hs, hsne, rfl⟩
  · rintro ⟨r, hdf, htype, hpt, hne, hcode⟩
    refine ⟨r, mem_mainItems.mpr ⟨hdf, htype, k.2, hpt, hne⟩, ?_⟩
    rw [hpt]
    simp only [Option.map_some']
    rw [hcode]

theorem mem_groupKeys {df : List Row} {k : String × String} :
    k ∈ groupKeys df ↔
      ∃ r ∈ df, r.type = "item" ∧ r.powerType = some k.2 ∧ k.2 ≠ "" ∧ r.code = k.1 := by
  rw [groupKeys, mem_dedupFirst, mem_itemKeys]

theorem mem_itemsForCode {df : List Row} {c pt : String} {r : Row} :
    r ∈ itemsForCode df c pt ↔
      r ∈ df ∧ r.code = c
        ∧ (r.powerType = some pt ∨ r.powerType = none ∨ r.powerType = some "")
        ∧ (r.type = "item" ∨ r.type = "subitem") := by
  simp only [itemsForCode, List.mem_filter, Bool.and_eq_true, Bool.or_eq_true,
    beq_iff_eq, Option.isNone_iff_eq_none, and_assoc, or_assoc]

theorem foldl_add_eq_sum {α : Type} (f : α → ℚ) :
    ∀ (l : List α) (a : ℚ), l.foldl (fun acc x => acc + f x) a = a + (l.map f).sum := by
  intro l
  induction l with
  | nil => intro a; simp
  | cons x xs ih =>
    intro a
    simp only [List.foldl_cons, List.map_cons, List.sum_cons, ih, add_assoc]

theorem rendererTotals_eq_sum (group : List Row) (descs : List String) (s : String) :
    rendererTotals group descs s = (descs.map (fun d => priceForHtml group s d)).sum := by
  rw [rendererTotals, foldl_add_eq_sum, zero_add]

theorem renderGroupTable_isSome {df : List Row} {c pt : String} (tp tr : ℚ)
    (h : (c, pt) ∈ groupKeys df) : (renderGroupTable df tp tr c pt).isSome := by
  rcases mem_groupKeys.mp h with ⟨r, hdf, htype, hpt, hne, hcode⟩
  have hgrp : r ∈ itemsForCode df c pt :=
    mem_itemsForCode.mpr ⟨hdf, hcode, Or.inl hpt, Or.inl htype⟩
  have hfil : r ∈ (itemsForCode df c pt).filter (fun x => x.type == "item") :=
    List.mem_filter.mpr ⟨hgrp, by simp [htype]⟩
  have hdesc : r.description ∈ descriptionsOf (itemsForCode df c pt) := by
    rw [descriptionsOf, mem_dedupFirst]
    exact List.mem_map_of_mem _ hgrp
  cases hcase : (itemsForCode df c pt).filter (fun x => x.type == "item") with
  | nil =>
    rw [hcase] at hfil
    exact absurd hfil (List.not_mem_nil r)
  | cons b bs =>
    cases hdcase : descriptionsOf (itemsForCode df c pt) with
    | nil =>
      rw [hdcase] at hdesc
      exact absurd hdesc (List.not_mem_nil _)
    | cons d ds =>
      simp only [renderGroupTable, hcase, hdcase, List.head?_cons, Option.isSome_some]

theorem renderAll_isSome {df : List Row} {tp tr : ℚ} :
    ∀ {ks : List (String × String)},
      (∀ k ∈ ks, (renderGroupTable df tp tr k.1 k.2).isSome) →
      (renderAll df tp tr ks).isSome := by
  intro ks
  induction ks with
  | nil => intro _; simp [renderAll]
  | cons k ks ih =>
    intro h
    have h1 := h k (List.mem_cons_self k ks)
    have h2 := ih (fun k2 hk2 => h k2 (List.mem_cons_of_mem k hk2))
    rcases Option.isSome_iff_exists.mp h1 with ⟨s, hs⟩
    rcases Option.isSome_iff_exists.mp h2 with ⟨rest, hrest⟩
    simp [renderAll, hs, hrest]

theorem generateHtmlTable_isSome (df : List Row) (tp : ℚ) :
    (generateHtmlTable df tp).isSome := by
  rw [generateHtmlTable, Option.isSome_map']
  exact renderAll_isSome (fun k hk => by
    have : (k.1, k.2) ∈ groupKeys df := by
      rcases k with ⟨a, b⟩
      exact hk
    exact renderGroupTable_isSome tp (tp / 100) this)

theorem blockAt_headerRow (df : List Row) (cur : Nat) (c pt : String) :
    (blockAt df cur c pt).headerRow = cur + 1 := rfl

theorem layoutFrom_chain (df : List Row) :
    ∀ (ks : List (String × String)) (cur i : Nat) (b1 b2 : GroupBlock),
      (layoutFrom df cur ks)[i]? = some b1 →
      (layoutFrom df cur ks)[i + 1]? = some b2 →
      b2.headerRow = b1.totalRow + 4 := by
  intro ks
  induction ks with
  | nil =>
    intro cur i b1 b2 h1 _
    simp [layoutFrom] at h1
  | cons k ks ih =>
    intro cur i b1 b2 h1 h2
    cases i with
    | zero =>
      simp only [layoutFrom, List.getElem?_cons_zero, Option.some.injEq] at h1
      cases ks with
      | nil =>
        simp [layoutFrom] at h2
      | cons k2 ks2 =>
        simp only [layoutFrom, List.getElem?_cons_succ, List.getElem?_cons_zero,
          Option.some.injEq] at h2
        rw [← h1, ← h2, blockAt_headerRow]
    | succ n =>
      refine ih (blockAt df cur k.1 k.2).totalRow.succ.succ.succ n b1 b2 ?_ ?_
      · simpa [layoutFrom, Nat.succ_eq_add_one] using h1
      · simpa [layoutFrom, Nat.succ_eq_add_one] using h2

/-- Claim C2: for every group and every (supplier, description) cell, the
numeric price embedded in the spreadsheet's per-line formula (quantity cell,
written as the literal 1, times the literal price) evaluates to the same
value the markup cell displays: the markup cell is exactly the formatted
rendering of the evaluated formula. -/
theorem c2_formula_vs_markup :
    ∀ (df : List Row) (c pt s d : String),
      evalLineFormula (itemsForCode df c pt) s d
          = priceForHtml (itemsForCode df c pt) s d
        ∧ priceCellHtml (itemsForCode df c pt) s d
          = "<td>" ++ formatCurrency (evalLineFormula (itemsForCode df c pt) s d) ++ "</td>" := by
  intro df c pt s d
  have hxe : priceForExcel (itemsForCode df c pt) s d
      = priceForHtml (itemsForCode df c pt) s d := rfl
  have h1 : evalLineFormula (itemsForCode df c pt) s d
      = priceForHtml (itemsForCode df c pt) s d := by
    rw [evalLineFormula, hxe, excelQtyCellValue, one_mul]
  exact ⟨h1, by rw [priceCellHtml, h1]⟩

/-- Claim C3: the grouping keys are exactly the distinct (code, Power Type)
pairs of rows with type "item" and non-blank Power Type; the group of a key
holds exactly the rows whose code matches, whose Power Type matches or is
blank, and whose type is "item" or "subitem"; a row with a different
non-blank Power Type is in no other group, and a blank-Power-Type row is in
every group sharing its code. -/
theorem c3_grouping_keys :
    ∀ (df : List Row),
      (∀ k : String × String, k ∈ groupKeys df ↔
          ∃ r ∈ df, r.type = "item" ∧ r.powerType = some k.2 ∧ k.2 ≠ "" ∧ r.code = k.1)
      ∧ (groupKeys df).Nodup
      ∧ (∀ (c pt : String) (r : Row), r ∈ itemsForCode df c pt ↔
          r ∈ df ∧ r.code = c
            ∧ (r.powerType = some pt ∨ r.powerType = none ∨ r.powerType = some "")
            ∧ (r.type = "item" ∨ r.type = "subitem"))
      ∧ (∀ (c p q : String) (r : Row),
          r.powerType = some p → p ≠ "" → p ≠ q → r ∉ itemsForCode df c q)
      ∧ (∀ (r : Row) (pt : String), r ∈ df →
          (r.powerType = none ∨ r.powerType = some "") →
          (r.type = "item" ∨ r.type = "subitem") →
          r ∈ itemsForCode df r.code pt) := by
  intro df
  refine ⟨fun k => mem_groupKeys, nodup_dedupFirst _, fun c pt r => mem_itemsForCode,
    ?_, ?_⟩
  · intro c p q r hp hpne hpq hmem
    rcases mem_itemsForCode.mp hmem with ⟨-, -, hdisj, -⟩
    rw [hp] at hdisj
    rcases hdisj with h | h | h
    · exact hpq (Option.some.inj h)
    · exact Option.noConfusion h
    · exact hpne (Option.some.inj h)
  · intro r pt hdf hblank htype
    exact mem_itemsForCode.mpr ⟨hdf, rfl, Or.inr hblank, htype⟩

/-- Witness for C3 at a concrete table: the row with Power Type "PT" is not
in the group keyed by a different Power Type "QQ", while the blank-Power-Type
row is. -/
theorem c3_grouping_keys_witness :
    rowEx1 ∉ itemsForCode dfExample "CC" "QQ"
      ∧ rowEx2 ∈ itemsForCode dfExample "CC" "QQ" :=
  ⟨(c3_grouping_keys dfExample).2.2.2.1 "CC" "PT" "QQ" rowEx1 rfl (by decide) (by decide),
   (c3_grouping_keys dfExample).2.2.2.2 rowEx2 "QQ" (by decide) (Or.inl rfl) (Or.inr rfl)⟩

/-- Claim C4: both renderers use the same price for a (supplier, description)
cell; when no row of the group matches, the price is 0 (not an error); when
several rows match, the first match wins. -/
theorem c4_price_first_match :
    ∀ (df : List Row) (c pt s d : String),
      priceForHtml (itemsForCode df c pt) s d = priceForExcel (itemsForCode df c pt) s d
      ∧ ((itemsForCode df c pt).filter (fun r => r.supplier == s && r.description == d) = []
          → priceForHtml (itemsForCode df c pt) s d = 0)
      ∧ (∀ (r : Row) (rest : List Row),
          (itemsForCode df c pt).filter (fun r => r.supplier == s && r.description == d)
              = r :: rest
          → priceForHtml (itemsForCode df c pt) s d = r.price) := by
  intro df c pt s d
  refine ⟨rfl, ?_, ?_⟩
  · intro h
    simp [priceForHtml, h]
  · intro r rest h
    simp [priceForHtml, h]

/-- Witness for C4 at a concrete table: with two rows for (A, X) the first
row's price 10 is used, and the absent pair (B, Z) yields 0. -/
theorem c4_price_first_match_witness :
    priceForHtml (itemsForCode dfDup "CD" "PT") "A" "X" = rowDup1.price
      ∧ priceForHtml (itemsForCode dfDup "CD" "PT") "B" "Z" = 0 :=
  ⟨(c4_price_first_match dfDup "CD" "PT" "A" "X").2.2 rowDup1 [rowDup2] rfl,
   (c4_price_first_match dfDup "CD" "PT" "B" "Z").2.1 rfl⟩

/-- Claim C6: on a group with no type "item" row, the brand lookup fails
(`iloc[0]` raises, embedded as `none`) and the group's table is not rendered
at all — in particular no markup with a blank brand is produced. -/
theorem c6_missing_brand :
    ∀ (df : List Row) (tp tr : ℚ) (c pt : String),
      (∀ r ∈ itemsForCode df c pt, r.type ≠ "item") →
      brandOf (itemsForCode df c pt) = none
        ∧ renderGroupTable df tp tr c pt = none := by
  intro df tp tr c pt h
  have hfil : (itemsForCode df c pt).filter (fun r => r.type == "item") = [] := by
    rw [List.filter_eq_nil_iff]
    intro r hr
    simpa using h r hr
  constructor
  · rw [brandOf, hfil]
    rfl
  · simp only [renderGroupTable, hfil, List.head?_nil]

/-- Witness for C6: a table whose only row is a subitem gives a group with no
"item" row, and rendering that group fails instead of emitting markup. -/
theorem c6_missing_brand_witness :
    brandOf (itemsForCode dfSubOnly "CZ" "P") = none
      ∧ renderGroupTable dfSubOnly 12 (12 / 100) "CZ" "P" = none :=
  c6_missing_brand dfSubOnly 12 (12 / 100) "CZ" "P" (by decide)

/-- Claim C7: the markup renderer is a pure, deterministic function of the
dataset and tax value — equal inputs give equal markup on any two runs — and
the run leaves the input dataset unchanged (the source reads the frame only
through boolean-mask selections). -/
theorem c7_render_pure :
    ∀ (df1 df2 : List Row) (t1 t2 : ℚ), df1 = df2 → t1 = t2 →
      generateHtmlTableRun df1 t1 = generateHtmlTableRun df2 t2
        ∧ (generateHtmlTableRun df1 t1).2 = df1 := by
  rintro df1 df2 t1 t2 rfl rfl
  exact ⟨rfl, rfl⟩

/-- Witness for C7 at a concrete table and tax value. -/
theorem c7_render_pure_witness :
    generateHtmlTableRun dfExample 12 = generateHtmlTableRun dfExample 12
      ∧ (generateHtmlTableRun dfExample 12).2 = dfExample :=
  c7_render_pure dfExample dfExample 12 12 rfl rfl

/-- Claim C9: a non-empty PDF upload whose file count differs from 3 raises
the validation warning and never sends the extraction request; the request
is sent only when exactly 3 files are uploaded. -/
theorem c9_pdf_count_validation :
    ∀ (n : Nat) (clicked : Bool),
      (0 < n → n ≠ 3 →
        (pdfUploadStep n clicked).warned = true
          ∧ (pdfUploadStep n clicked).requestSent = false)
      ∧ ((pdfUploadStep n clicked).requestSent = true → n = 3) := by
  intro n clicked
  constructor
  · intro hpos hne
    have h0 : decide (n ≠ 0) = true := decide_eq_true (Nat.pos_iff_ne_zero.mp hpos)
    have h3 : decide (n ≠ 3) = true := decide_eq_true hne
    have h3f : decide (n = 3) = false := decide_eq_false hne
    constructor
    · simp [pdfUploadStep, h0, h3]
    · simp [pdfUploadStep, h3f]
  · intro hsent
    by_contra hne
    have h3f : decide (n = 3) = false := decide_eq_false hne
    simp [pdfUploadStep, h3f] at hsent

/-- Witness for C9: uploading 2 files warns and sends nothing, even with the
process button pressed. -/
theorem c9_pdf_count_validation_witness :
    (pdfUploadStep 2 true).warned = true ∧ (pdfUploadStep 2 true).requestSent = false :=
  (c9_pdf_count_validation 2 true).1 (by decide) (by decide)

/-- Claim C1: the pre-tax subtotal a group's renderer accumulates for a
supplier is the sum of that supplier's price over the group's descriptions
(0 for missing cells), the final total is subtotal * (1 + taxPercent/100),
and on the worked example (prices A/X=10, A/Y=20, B/X=15, B/Y=5, tax 12%)
the subtotals are 30 and 20 and the final totals 33.60 and 22.40. -/
theorem c1_totals :
    (∀ (group : List Row) (descs : List String) (s : String) (t : ℚ),
        rendererTotals group descs s = (descs.map (fun d => priceForHtml group s d)).sum
        ∧ rendererFinalTotal group descs (t / 100) s
            = rendererTotals group descs s * (1 + t / 100))
    ∧ rendererTotals (itemsForCode dfExample "CC" "PT")
        (descriptionsOf (itemsForCode dfExample "CC" "PT")) "A" = 30
    ∧ rendererTotals (itemsForCode dfExample "CC" "PT")
        (descriptionsOf (itemsForCode dfExample "CC" "PT")) "B" = 20
    ∧ rendererFinalTotal (itemsForCode dfExample "CC" "PT")
        (descriptionsOf (itemsForCode dfExample "CC" "PT")) (12 / 100) "A" = 168 / 5
    ∧ rendererFinalTotal (itemsForCode dfExample "CC" "PT")
        (descriptionsOf (itemsForCode dfExample "CC" "PT")) (12 / 100) "B" = 112 / 5 := by
  have hg : itemsForCode dfExample "CC" "PT" = [rowEx1, rowEx2, rowEx3, rowEx4] := rfl
  have hd : descriptionsOf (itemsForCode dfExample "CC" "PT") = ["X", "Y"] := rfl
  have hax : priceForHtml [rowEx1, rowEx2, rowEx3, rowEx4] "A" "X" = 10 := rfl
  have hay : priceForHtml [rowEx1, rowEx2, rowEx3, rowEx4] "A" "Y" = 20 := rfl
  have hbx : priceForHtml [rowEx1, rowEx2, rowEx3, rowEx4] "B" "X" = 15 := rfl
  have hby : priceForHtml [rowEx1, rowEx2, rowEx3, rowEx4] "B" "Y" = 5 := rfl
  have hsubA : rendererTotals (itemsForCode dfExample "CC" "PT")
      (descriptionsOf (itemsForCode dfExample "CC" "PT")) "A" = 30 := by
    rw [hd, hg, rendererTotals]
    simp only [List.foldl_cons, List.foldl_nil, hax, hay]
    norm_num
  have hsubB : rendererTotals (itemsForCode dfExample "CC" "PT")
      (descriptionsOf (itemsForCode dfExample "CC" "PT")) "B" = 20 := by
    rw [hd, hg, rendererTotals]
    simp only [List.foldl_cons, List.foldl_nil, hbx, hby]
    norm_num
  refine ⟨fun group descs s t => ⟨rendererTotals_eq_sum group descs s, rfl⟩,
    hsubA, hsubB, ?_, ?_⟩
  · rw [rendererFinalTotal, hsubA]
    norm_num
  · rw [rendererFinalTotal, hsubB]
    norm_num

/-- Counterexample to C5 as stated: in the workbook layout the first group's
total row is row 7 and the next group's first occupied row (its header) is
row 11, so the groups are separated by 11 - 7 - 1 = 3 blank rows, not by
exactly 2 (the loop advances `current_row` to `total_row + 3`, but every
group writes its first cell at `start_row + start_row_offset` with offset 1,
leaving a third blank row). -/
theorem c5_two_blank_rows_false :
    (layoutBlocks dfTwoGroups).map (fun b => (b.headerRow, b.totalRow))
        = [(2, 7), (11, 16)]
      ∧ 11 - 7 - 1 = 3 ∧ ¬(11 - 7 - 1 = 2) := by
  refine ⟨by decide, by decide, by decide⟩

/-- Claim C5 as amended: all groups are stacked vertically on the one sheet,
and each group is separated from the next by a fixed gap of exactly 3 blank
rows between the group's total row and the next group's header row (the next
header sits at `total_row + 4`). -/
theorem c5_group_gap :
    ∀ (df : List Row) (i : Nat) (b1 b2 : GroupBlock),
      (layoutBlocks df)[i]? = some b1 →
      (layoutBlocks df)[i + 1]? = some b2 →
      b2.headerRow = b1.totalRow + 4 := by
  intro df i b1 b2 h1 h2
  exact layoutFrom_chain df (groupKeys df) 1 i b1 b2 h1 h2

/-- Witness for the amended C5 on the two-group table: the second block's
header row 11 is the first block's total row 7 plus 4. -/
theorem c5_group_gap_witness :
    (GroupBlock.mk 10 11 12 15 16).headerRow = (GroupBlock.mk 1 2 3 6 7).totalRow + 4 :=
  c5_group_gap dfTwoGroups 0 (GroupBlock.mk 1 2 3 6 7) (GroupBlock.mk 10 11 12 15 16)
    (by decide) (by decide)

/-- Claim C8: groups are emitted in first-occurrence order of their
(code, Power Type) keys over the "item" rows in table order (the key list is
a duplicate-free subsequence of the scanned keys, ordered by first
occurrence), and within a group the suppliers and descriptions are likewise
in first-occurrence order of the group's rows. -/
theorem c8_first_occurrence_order :
    ∀ (df : List Row) (c pt : String),
      ((groupKeys df).Sublist (itemKeys df)
        ∧ (groupKeys df).Nodup
        ∧ (groupKeys df).Pairwise
            (fun a b => firstIdx (itemKeys df) a < firstIdx (itemKeys df) b))
      ∧ ((suppliersOf (itemsForCode df c pt)).Sublist
            ((itemsForCode df c pt).map (fun r => r.supplier))
        ∧ (suppliersOf (itemsForCode df c pt)).Nodup
        ∧ (suppliersOf (itemsForCode df c pt)).Pairwise
            (fun a b => firstIdx ((itemsForCode df c pt).map (fun r => r.supplier)) a
              < firstIdx ((itemsForCode df c pt).map (fun r => r.supplier)) b))
      ∧ ((descriptionsOf (itemsForCode df c pt)).Sublist
            ((itemsForCode df c pt).map (fun r => r.description))
        ∧ (descriptionsOf (itemsForCode df c pt)).Nodup
        ∧ (descriptionsOf (itemsForCode df c pt)).Pairwise
            (fun a b => firstIdx ((itemsForCode df c pt).map (fun r => r.description)) a
              < firstIdx ((itemsForCode df c pt).map (fun r => r.description)) b)) := by
  intro df c pt
  exact ⟨⟨sublist_dedupFirst _, nodup_dedupFirst _, pairwise_firstIdx_dedupFirst _⟩,
    ⟨sublist_dedupFirst _, nodup_dedupFirst _, pairwise_firstIdx_dedupFirst _⟩,
    ⟨sublist_dedupFirst _, nodup_dedupFirst _, pairwise_firstIdx_dedupFirst _⟩⟩

/-- Claim C10: every group reachable from the key scan is non-empty and
contains an "item" row (the row that generated its key passes the group's own
filter), so the brand lookup never fails on pipeline groups and the markup
renderer succeeds on every input table. -/
theorem c10_brand_lookup_safe :
    ∀ (df : List Row) (t : ℚ) (c pt : String),
      ((c, pt) ∈ groupKeys df →
        itemsForCode df c pt ≠ []
          ∧ (∃ r ∈ itemsForCode df c pt, r.type = "item")
          ∧ brandOf (itemsForCode df c pt) ≠ none)
      ∧ (generateHtmlTable df t).isSome := by
  intro df t c pt
  constructor
  · intro hk
    rcases mem_groupKeys.mp hk with ⟨r, hdf, htype, hpt, hne, hcode⟩
    have hgrp : r ∈ itemsForCode df c pt :=
      mem_itemsForCode.mpr ⟨hdf, hcode, Or.inl hpt, Or.inl htype⟩
    refine ⟨?_, ⟨r, hgrp, htype⟩, ?_⟩
    · intro hnil
      rw [hnil] at hgrp
      exact List.not_mem_nil r hgrp
    · intro hb
      have hrf : r ∈ (itemsForCode df c pt).filter (fun x => x.type == "item") :=
        List.mem_filter.mpr ⟨hgrp, by simp [htype]⟩
      have hfnil : (itemsForCode df c pt).filter (fun x => x.type == "item") = [] := by
        rw [brandOf] at hb
        exact List.head?_eq_none_iff.mp (Option.map_eq_none'.mp hb)
      rw [hfnil] at hrf
      exact List.not_mem_nil r hrf
  · exact generateHtmlTable_isSome df t

/-- Witness for C10 at a concrete table whose single key is ("CC", "PT"). -/
theorem c10_brand_lookup_safe_witness :
    (itemsForCode dfExample "CC" "PT" ≠ []
        ∧ (∃ r ∈ itemsForCode dfExample "CC" "PT", r.type = "item")
        ∧ brandOf (itemsForCode dfExample "CC" "PT") ≠ none)
      ∧ (generateHtmlTable dfExample 12).isSome :=
  ⟨(c10_brand_lookup_safe dfExample 12 "CC" "PT").1 (by decide),
   (c10_brand_lookup_safe dfExample 12 "CC" "PT").2⟩
